import Mathlib

/-!
Shallow embedding of `src/app.js` (Express + Mongoose + bcrypt + jsonwebtoken
user-management API).

Modelling conventions:
- A stored user document is a `UserRec`; the Mongo collection is a `Store`
  (a list of documents).
- `bcrypt.hash(p, salt)` is modelled by the constructor
  `PwVal.hashed salt (PwVal.plain p)`: hashing is one-way and salted, so the
  hash is represented as an opaque value remembering the salt and the input.
  `bcrypt.compare` succeeds exactly on a once-hashed value of the candidate.
- Request-body fields are `Option String`; `none` is JavaScript `undefined`
  (field absent from the body).  JavaScript truthiness of a string field is
  `truthy`: absent or empty-string fields are falsy.
- A possible connectivity/server failure of the database is injected per
  request as `fault : Option String` (the raised error's `message`); the
  `try/catch` of each handler is the `Except DbErr` match in the handler.
- Mongoose semantics embedded (current major versions, v6+): `required`
  String validation fails on unset/empty paths; keys whose value is
  `undefined` are stripped from an update before it is applied; a malformed
  ObjectId makes `findById` / `findByIdAndUpdate` / `findByIdAndDelete`
  throw a CastError; the unique index on `email` raises error code 11000.
- `jwt.sign(payload, secret, expiresIn 1h)` yields a token with
  `exp = now + 3600` (seconds); `jwt.verify` succeeds iff the signature
  matches the secret and `now < exp` (jsonwebtoken treats `now >= exp` as
  expired).  A wire token is either a well-formed signed token or garbage.
-/

namespace UserApp

/-- A bcrypt-style password value: either a plaintext or the result of
hashing a value with a salt. `bcrypt.hash(p, salt)` on a plaintext `p` is
`hashed salt (plain p)`; a double hash would be `hashed s (hashed ..)`. -/
inductive PwVal where
| plain (s : String) : PwVal
| hashed (salt : Nat) (v : PwVal) : PwVal
deriving Repr, DecidableEq

/-- Model of `bcrypt.compare(candidate, stored)`: true iff `stored` is the candidate
hashed exactly once (with whatever salt is embedded in the hash). -/
def comparePassword (candidate : String) (stored : PwVal) : Bool :=
match stored with
| PwVal.hashed _ (PwVal.plain p) => p == candidate
| _ => false

/-- A stored user document: `_id`, the three schema paths; `password` holds
the persisted (hashed) value. -/
structure UserRec where
  id : String
  name : String
  email : String
  password : PwVal
deriving Repr, DecidableEq

/-- The user collection. -/
abbrev Store := List UserRec

/-- Errors surfaced by the Mongoose layer to a handler's `catch`. -/
inductive DbErr where
| dupKey (msg : String) : DbErr
| castError (msg : String) : DbErr
| validationError (msg : String) : DbErr
| storageError (msg : String) : DbErr
deriving Repr, DecidableEq

/-- The `error.message` string as read by the catch blocks. -/
def DbErr.message : DbErr → String
| DbErr.dupKey m => m
| DbErr.castError m => m
| DbErr.validationError m => m
| DbErr.storageError m => m

/-- The `error.code === 11000` test (Mongo duplicate-key error). -/
def DbErr.isDupKey : DbErr → Bool
| DbErr.dupKey _ => true
| _ => false

/-- A hexadecimal character. -/
def isHexChar (c : Char) : Bool :=
c.isDigit || ('a' ≤ c && c ≤ 'f') || ('A' ≤ c && c ≤ 'F')

/-- Mongoose's ObjectId cast: a 24-character hex string casts; anything else
throws a CastError. -/
def validObjectId (s : String) : Bool :=
s.length == 24 && s.toList.all isHexChar

/-- A request body: the `name`, `email`, `password` fields, each possibly
absent (`undefined`). -/
structure ReqBody where
  name : Option String
  email : Option String
  password : Option String
deriving Repr, DecidableEq

/-- JavaScript truthiness of an optional string field: `undefined` and the
empty string are falsy. -/
def truthy (f : Option String) : Bool :=
match f with
| none => false
| some s => s != ""

/-- Mongoose `required` validation on a String path: passes iff the path is
set to a non-empty string. -/
def requiredOk (f : Option String) : Bool :=
match f with
| none => false
| some s => s != ""

/-- Model of `User.find()` (the whole collection), with a possible storage failure. -/
def findAll (st : Store) (fault : Option String) : Except DbErr (List UserRec) :=
match fault with
| some m => Except.error (DbErr.storageError m)
| none => Except.ok st

/-- Model of `User.findById(id)`: CastError on a malformed id, else the document with
that `_id` if any. -/
def findById (st : Store) (fault : Option String) (id : String) :
    Except DbErr (Option UserRec) :=
if !validObjectId id then
  Except.error (DbErr.castError ("Cast to ObjectId failed for value " ++ id))
else
  match fault with
  | some m => Except.error (DbErr.storageError m)
  | none => Except.ok (st.find? (fun r => r.id == id))

/-- Model of `User.findOne(email)`: Mongoose strips an `undefined` filter value, so a
missing email queries the empty filter and returns the first document. -/
def findOneByEmail (st : Store) (fault : Option String) (email : Option String) :
    Except DbErr (Option UserRec) :=
match fault with
| some m => Except.error (DbErr.storageError m)
| none =>
  match email with
  | some e => Except.ok (st.find? (fun r => r.email == e))
  | none => Except.ok st.head?

/-- Model of `new User(name, email, password)` followed by `user.save()`:
validation (the `required` checks) runs first, then the `pre-save` hook
hashes the (freshly set, hence modified) password once, then the insert can
fail with a storage fault or the duplicate-email index (code 11000). -/
def saveNewUser (st : Store) (fault : Option String) (newId : String)
    (salt : Nat) (body : ReqBody) : Except DbErr (Store × UserRec) :=
if !requiredOk body.name then
  Except.error (DbErr.validationError "User validation failed: name is required")
else if !requiredOk body.email then
  Except.error (DbErr.validationError "User validation failed: email is required")
else if !requiredOk body.password then
  Except.error (DbErr.validationError "User validation failed: password is required")
else
  let hashedPw := PwVal.hashed salt (PwVal.plain (body.password.getD ""))
  match fault with
  | some m => Except.error (DbErr.storageError m)
  | none =>
    if st.any (fun r => r.email == body.email.getD "") then
      Except.error (DbErr.dupKey "E11000 duplicate key error")
    else
      let u : UserRec :=
        { id := newId, name := body.name.getD "", email := body.email.getD "",
          password := hashedPw }
      Except.ok (st ++ [u], u)

/-- The effective update document of the PUT handler: in the source,
`updateFields` always carries `name` and `email` (possibly `undefined`) and
carries `password` only when the body's password is truthy, already hashed
by the handler itself; Mongoose then strips the `undefined` keys. -/
structure UpdFields where
  name : Option String
  email : Option String
  password : Option PwVal
deriving Repr, DecidableEq

/-- Build the update document from the request body (PUT handler lines:
`updateFields = name, email; if password then updateFields.password :=
bcrypt.hash(password, salt)`). -/
def mkUpdateFields (salt : Nat) (body : ReqBody) : UpdFields :=
{ name := body.name
  email := body.email
  password :=
    match body.password with
    | some p => if p != "" then some (PwVal.hashed salt (PwVal.plain p)) else none
    | none => none }

/-- Apply an update document to one record (`$set` of the present fields). -/
def applyUpd (f : UpdFields) (r : UserRec) : UserRec :=
{ r with
  name := f.name.getD r.name
  email := f.email.getD r.email
  password := f.password.getD r.password }

/-- Model of `User.findByIdAndUpdate(id, updateFields, new
runValidators)`: CastError on a malformed id; `runValidators` re-runs the
`required` checks on the paths present in the update; then the update can
hit a storage fault, find no document (`null`), collide on the unique email
index (code 11000), or succeed returning the updated document. -/
def findByIdAndUpdate (st : Store) (fault : Option String) (id : String)
    (f : UpdFields) : Except DbErr (Store × Option UserRec) :=
if !validObjectId id then
  Except.error (DbErr.castError ("Cast to ObjectId failed for value " ++ id))
else if f.name = some "" then
  Except.error (DbErr.validationError "Validation failed: name is required")
else if f.email = some "" then
  Except.error (DbErr.validationError "Validation failed: email is required")
else
  match fault with
  | some m => Except.error (DbErr.storageError m)
  | none =>
    match st.find? (fun r => r.id == id) with
    | none => Except.ok (st, none)
    | some r =>
      match f.email with
      | some e =>
        if st.any (fun q => q.email == e && q.id != id) then
          Except.error (DbErr.dupKey "E11000 duplicate key error")
        else
          Except.ok
            (st.map (fun q => if q.id == id then applyUpd f q else q),
             some (applyUpd f r))
      | none =>
        Except.ok
          (st.map (fun q => if q.id == id then applyUpd f q else q),
           some (applyUpd f r))

/-- Model of `User.findByIdAndDelete(id)`. -/
def findByIdAndDelete (st : Store) (fault : Option String) (id : String) :
    Except DbErr (Store × Option UserRec) :=
if !validObjectId id then
  Except.error (DbErr.castError ("Cast to ObjectId failed for value " ++ id))
else
  match fault with
  | some m => Except.error (DbErr.storageError m)
  | none =>
    match st.find? (fun r => r.id == id) with
    | none => Except.ok (st, none)
    | some r => Except.ok (st.filter (fun q => q.id != id), some r)

/-- A JWT: payload `userId`, expiry (NumericDate, seconds), and the secret
that signed it. -/
structure Token where
  userId : String
  exp : Nat
  sig : String
deriving Repr, DecidableEq

/-- Model of `jwt.sign(userId, jwtSecret, expiresIn 1h)` at time `now` (seconds):
the expiry is exactly one hour (3600 s) after issuance. -/
def issueTok (secret : String) (uid : String) (now : Nat) : Token :=
{ userId := uid, exp := now + 3600, sig := secret }

/-- A token as presented on the wire: a well-formed signed token, or any
other (malformed) string. -/
inductive WireTok where
| good (t : Token) : WireTok
| garbage (s : String) : WireTok
deriving Repr, DecidableEq

/-- Model of `jwt.verify(token, secret)` at time `now`: bad signature, malformed
token and expiry (`now >= exp`) are all the same failure (`err` in the
callback); success yields the payload's `userId`. -/
def jwtVerify (secret : String) (now : Nat) : WireTok → Option String
| WireTok.garbage _ => none
| WireTok.good t => if t.sig == secret && now < t.exp then some t.userId else none

/-- The `Authorization` header as seen by the middleware, classified by how
`authHeader && authHeader.split(' ')[1]` evaluates on it:
`missing` (no header: `authHeader` is `undefined`); `emptyVal` (header
present with value `""`: `"" && _` short-circuits to `""`, which is not
`== null`, so the middleware treats `""` as a token and verifies it);
`schemeOnly s` (a non-empty value `s` with no space-separated second part:
`split(' ')[1]` is `undefined`); `schemeTok s t` (value `s ++ " " ++ t`:
the second part `t` is taken as the token; the scheme word is never
checked). -/
inductive AuthHeader where
| missing : AuthHeader
| emptyVal : AuthHeader
| schemeOnly (scheme : String) : AuthHeader
| schemeTok (scheme : String) (t : WireTok) : AuthHeader
deriving Repr, DecidableEq

/-- Model of `const token = authHeader && authHeader.split(' ')[1]`, returning
`none` exactly when the JavaScript `token == null` test fires. -/
def extractTok : AuthHeader → Option WireTok
| AuthHeader.missing => none
| AuthHeader.emptyVal => some (WireTok.garbage "")
| AuthHeader.schemeOnly _ => none
| AuthHeader.schemeTok _ t => some t

/-- JSON response bodies actually built by the handlers. -/
inductive JVal where
| str (s : String) : JVal
| tok (t : Token) : JVal
| obj (fields : List (String × JVal)) : JVal
| arr (elems : List JVal) : JVal

/-- An HTTP response: status code and JSON body. -/
structure Response where
  status : Nat
  body : JVal

/-- Serialization of a document fetched with `.select(-password)`: the
`_id`, `name` and `email` paths, no `password` path. -/
def pubUserJson (u : UserRec) : JVal :=
JVal.obj [("_id", JVal.str u.id), ("name", JVal.str u.name),
          ("email", JVal.str u.email)]

/-- The `user` object literal of the create/update responses:
`name, email, _id`. -/
def summaryUserJson (u : UserRec) : JVal :=
JVal.obj [("name", JVal.str u.name), ("email", JVal.str u.email),
          ("_id", JVal.str u.id)]

mutual

/-- No key of any object anywhere in the value is `password`. -/
def noPw : JVal → Bool
| JVal.str _ => true
| JVal.tok _ => true
| JVal.obj fs => noPwFields fs
| JVal.arr xs => noPwElems xs

/-- The `noPw` check over an object's field list. -/
def noPwFields : List (String × JVal) → Bool
| [] => true
| (k, v) :: rest => k != "password" && noPw v && noPwFields rest

/-- The `noPw` check over an array's elements. -/
def noPwElems : List JVal → Bool
| [] => true
| v :: rest => noPw v && noPwElems rest

end

/-- GET /api/users. -/
def getUsersHandler (st : Store) (fault : Option String) : Response :=
match findAll st fault with
| Except.ok users => { status := 200, body := JVal.arr (users.map pubUserJson) }
| Except.error _ =>
  { status := 500, body := JVal.obj [("error", JVal.str "Failed to fetch users")] }

/-- GET /api/users/:id. -/
def getUserHandler (st : Store) (fault : Option String) (id : String) : Response :=
match findById st fault id with
| Except.ok none =>
  { status := 404, body := JVal.obj [("message", JVal.str "User not found")] }
| Except.ok (some u) => { status := 200, body := pubUserJson u }
| Except.error _ =>
  { status := 500, body := JVal.obj [("error", JVal.str "Failed to fetch user")] }

/-- POST /api/users: returns the (possibly updated) store and the response. -/
def createUserHandler (st : Store) (fault : Option String) (newId : String)
    (salt : Nat) (body : ReqBody) : Store × Response :=
match saveNewUser st fault newId salt body with
| Except.ok (st2, u) =>
  (st2,
   { status := 201,
     body := JVal.obj [("message", JVal.str "User created successfully"),
                       ("user", summaryUserJson u)] })
| Except.error e =>
  (st,
   if e.isDupKey then
     { status := 409, body := JVal.obj [("message", JVal.str "Email already exists")] }
   else
     { status := 400, body := JVal.obj [("error", JVal.str e.message)] })

/-- PUT /api/users/:id. -/
def updateUserHandler (st : Store) (fault : Option String) (salt : Nat)
    (id : String) (body : ReqBody) : Store × Response :=
match findByIdAndUpdate st fault id (mkUpdateFields salt body) with
| Except.ok (st2, some u) =>
  (st2,
   { status := 200,
     body := JVal.obj [("message", JVal.str "User updated successfully"),
                       ("user", summaryUserJson u)] })
| Except.ok (st2, none) =>
  (st2, { status := 404, body := JVal.obj [("message", JVal.str "User not found")] })
| Except.error e =>
  (st,
   if e.isDupKey then
     { status := 409, body := JVal.obj [("message", JVal.str "Email already exists")] }
   else
     { status := 400, body := JVal.obj [("error", JVal.str e.message)] })

/-- DELETE /api/users/:id. -/
def deleteUserHandler (st : Store) (fault : Option String) (id : String) :
    Store × Response :=
match findByIdAndDelete st fault id with
| Except.ok (st2, some _) =>
  (st2,
   { status := 200, body := JVal.obj [("message", JVal.str "User deleted successfully")] })
| Except.ok (st2, none) =>
  (st2, { status := 404, body := JVal.obj [("message", JVal.str "User not found")] })
| Except.error _ =>
  (st, { status := 500, body := JVal.obj [("error", JVal.str "Failed to delete user")] })

/-- POST /api/users/login: find by email, `bcrypt.compare`, sign a token.
`bcrypt.compare(undefined, hash)` rejects, so a missing body password lands
in the catch block (500). -/
def loginHandler (st : Store) (fault : Option String) (secret : String)
    (now : Nat) (body : ReqBody) : Response :=
match findOneByEmail st fault body.email with
| Except.error _ =>
  { status := 500, body := JVal.obj [("error", JVal.str "Server error")] }
| Except.ok none =>
  { status := 401,
    body := JVal.obj [("message", JVal.str "Authentication failed. User not found.")] }
| Except.ok (some u) =>
  match body.password with
  | none => { status := 500, body := JVal.obj [("error", JVal.str "Server error")] }
  | some p =>
    if !comparePassword p u.password then
      { status := 401,
        body := JVal.obj [("message", JVal.str "Authentication failed. Incorrect password.")] }
    else
      { status := 200,
        body := JVal.obj [("message", JVal.str "Login successful"),
                          ("token", JVal.tok (issueTok secret u.id now))] }

/-- Outcome of the `authenticateToken` middleware: an early response, or
the verified payload's `userId` passed on via `req.user`. -/
inductive AuthOutcome where
| denied (r : Response) : AuthOutcome
| authedAs (userId : String) : AuthOutcome

/-- The `authenticateToken` middleware. -/
def authenticateToken (secret : String) (now : Nat) (hdr : AuthHeader) :
    AuthOutcome :=
match extractTok hdr with
| none =>
  AuthOutcome.denied
    { status := 401, body := JVal.obj [("message", JVal.str "Authentication token required")] }
| some w =>
  match jwtVerify secret now w with
  | none =>
    AuthOutcome.denied
      { status := 403, body := JVal.obj [("message", JVal.str "Invalid token")] }
  | some uid => AuthOutcome.authedAs uid

/-- GET /api/users/profile (protected route). -/
def profileHandler (st : Store) (fault : Option String) (secret : String)
    (now : Nat) (hdr : AuthHeader) : Response :=
match authenticateToken secret now hdr with
| AuthOutcome.denied r => r
| AuthOutcome.authedAs uid =>
  match findById st fault uid with
  | Except.ok none =>
    { status := 404, body := JVal.obj [("message", JVal.str "User not found")] }
  | Except.ok (some u) =>
    { status := 200,
      body := JVal.obj [("message", JVal.str "Access granted"), ("user", pubUserJson u)] }
  | Except.error _ =>
    { status := 500, body := JVal.obj [("error", JVal.str "Server error")] }

/-- The store invariant of the data model: documents have pairwise distinct
ids (generated) and pairwise distinct emails (unique index). -/
def distinctRecs (st : Store) : Prop :=
st.Pairwise (fun a b => a.id ≠ b.id ∧ a.email ≠ b.email)


/-! ### Sample data for concrete evaluations -/

/-- A well-formed ObjectId. -/
def sampleId : String := "aaaaaaaaaaaaaaaaaaaaaaaa"

/-- A second, distinct well-formed ObjectId. -/
def sampleId2 : String := "bbbbbbbbbbbbbbbbbbbbbbbb"

/-- A stored user. -/
def sampleU1 : UserRec :=
{ id := sampleId, name := "Alice", email := "a@x.com",
  password := PwVal.hashed 3 (PwVal.plain "pw") }

/-- A second stored user. -/
def sampleU2 : UserRec :=
{ id := sampleId2, name := "Bob", email := "b@x.com",
  password := PwVal.hashed 4 (PwVal.plain "pw2") }

/-! ### Helper lemmas -/

/-- An optional string field is falsy exactly when it is absent or empty. -/
theorem truthy_eq_false {o : Option String} :
    truthy o = false ↔ o = none ∨ o = some "" := by
cases o <;> simp [truthy]

/-- The `required` validator passes exactly on a present, non-empty field. -/
theorem requiredOk_iff {o : Option String} :
    requiredOk o = true ↔ ∃ s, o = some s ∧ s ≠ "" := by
cases o <;> simp [requiredOk]

/-- An empty update document changes nothing on a record. -/
theorem applyUpd_nil (r : UserRec) :
    applyUpd { name := none, email := none, password := none } r = r := rfl

/-- The update document never touches the `_id`. -/
theorem applyUpd_id (f : UpdFields) (r : UserRec) : (applyUpd f r).id = r.id := rfl

/-- A projected user document serializes without a `password` key. -/
theorem noPw_pubUserJson (u : UserRec) : noPw (pubUserJson u) = true := by
simp [pubUserJson, noPw, noPwFields]

/-- The create/update `user` summary serializes without a `password` key. -/
theorem noPw_summaryUserJson (u : UserRec) : noPw (summaryUserJson u) = true := by
simp [summaryUserJson, noPw, noPwFields]

/-- A list of projected user documents has no `password` key anywhere. -/
theorem noPwElems_map_pubUserJson (l : List UserRec) :
    noPwElems (l.map pubUserJson) = true := by
induction l with
| nil => rfl
| cons u rest ih => simp [noPwElems, noPw_pubUserJson u, ih]

/-- The list-users handler replies 200 or 500. -/
theorem getUsersStatus_mem (st : Store) (fault : Option String) :
    (getUsersHandler st fault).status ∈ [200, 500] := by
unfold getUsersHandler
split <;> simp

/-- The get-user handler replies 200, 404 or 500. -/
theorem getUserStatus_mem (st : Store) (fault : Option String) (id : String) :
    (getUserHandler st fault id).status ∈ [200, 404, 500] := by
unfold getUserHandler
split <;> simp

/-- The create handler replies 201, 400 or 409 — never 500. -/
theorem createStatus_mem (st : Store) (fault : Option String) (newId : String)
    (salt : Nat) (body : ReqBody) :
    (createUserHandler st fault newId salt body).2.status ∈ [201, 400, 409] := by
unfold createUserHandler
split
· simp
· split <;> simp

/-- The update handler replies 200, 400, 404 or 409 — never 500. -/
theorem updateStatus_mem (st : Store) (fault : Option String) (salt : Nat)
    (id : String) (body : ReqBody) :
    (updateUserHandler st fault salt id body).2.status ∈ [200, 400, 404, 409] := by
unfold updateUserHandler
split
· simp
· simp
· split <;> simp

/-- The delete handler replies 200, 404 or 500. -/
theorem deleteStatus_mem (st : Store) (fault : Option String) (id : String) :
    (deleteUserHandler st fault id).2.status ∈ [200, 404, 500] := by
unfold deleteUserHandler
split <;> simp

/-- The login handler replies 200, 401 or 500. -/
theorem loginStatus_mem (st : Store) (fault : Option String) (secret : String)
    (now : Nat) (body : ReqBody) :
    (loginHandler st fault secret now body).status ∈ [200, 401, 500] := by
unfold loginHandler
split
· simp
· simp
· split
  · simp
  · split <;> simp

/-- A response denied by the middleware has status 401 or 403. -/
theorem authenticateToken_denied_status (secret : String) (now : Nat)
    (hdr : AuthHeader) (r : Response)
    (h : authenticateToken secret now hdr = AuthOutcome.denied r) :
    r.status = 401 ∨ r.status = 403 := by
unfold authenticateToken at h
split at h
· injection h with h2
  subst h2
  left
  rfl
· split at h
  · injection h with h2
    subst h2
    right
    rfl
  · exact AuthOutcome.noConfusion h

/-- The profile handler replies 200, 401, 403, 404 or 500. -/
theorem profileStatus_mem (st : Store) (fault : Option String) (secret : String)
    (now : Nat) (hdr : AuthHeader) :
    (profileHandler st fault secret now hdr).status ∈ [200, 401, 403, 404, 500] := by
unfold profileHandler
split
· next r hr =>
  rcases authenticateToken_denied_status secret now hdr r hr with h | h <;> simp [h]
· split <;> simp

/-! ### Claim theorems -/

/-- C6: a token signed at login embeds the userId and expires exactly one
hour (3600 s) after issuance; immediately after issuance it verifies to the
same userId; at and after its expiry instant verification is the single
Invalid outcome, which the middleware maps to 403. -/
theorem c6_token_lifecycle (secret uid : String) (t0 now : Nat) :
    (issueTok secret uid t0).exp = t0 + 3600
    ∧ jwtVerify secret t0 (WireTok.good (issueTok secret uid t0)) = some uid
    ∧ (t0 + 3600 ≤ now →
        jwtVerify secret now (WireTok.good (issueTok secret uid t0)) = none
        ∧ authenticateToken secret now
            (AuthHeader.schemeTok "Bearer" (WireTok.good (issueTok secret uid t0)))
          = AuthOutcome.denied
              { status := 403,
                body := JVal.obj [("message", JVal.str "Invalid token")] }) := by
refine ⟨rfl, ?_, ?_⟩
· simp [jwtVerify, issueTok]
· intro h
  have hv : jwtVerify secret now (WireTok.good (issueTok secret uid t0)) = none := by
    simp only [jwtVerify, issueTok]
    rw [if_neg]
    simp only [Bool.and_eq_true, beq_self_eq_true, true_and, decide_eq_true_eq]
    omega
  exact ⟨hv, by simp [authenticateToken, extractTok, hv]⟩

/-- C6 witness: concrete instantiation at secret "s", user "u1", issued at
time 100 and checked at time 5000. -/
theorem c6_token_lifecycle_witness :
    (issueTok "s" "u1" 100).exp = 100 + 3600
    ∧ jwtVerify "s" 100 (WireTok.good (issueTok "s" "u1" 100)) = some "u1"
    ∧ (jwtVerify "s" 5000 (WireTok.good (issueTok "s" "u1" 100)) = none
       ∧ authenticateToken "s" 5000
           (AuthHeader.schemeTok "Bearer" (WireTok.good (issueTok "s" "u1" 100)))
         = AuthOutcome.denied
             { status := 403,
               body := JVal.obj [("message", JVal.str "Invalid token")] }) := by
have h := c6_token_lifecycle "s" "u1" 100 5000
exact ⟨h.1, h.2.1, h.2.2 (by norm_num)⟩

/-- C8: at login, both an unknown email and a known email with a
non-matching password produce the same status 401. -/
theorem c8_login_unauthorized (st : Store) (secret : String) (now : Nat)
    (e p : String) (bn : Option String) :
    (st.find? (fun r => r.email == e) = none →
      (loginHandler st none secret now
        { name := bn, email := some e, password := some p }).status = 401)
    ∧ (∀ u, st.find? (fun r => r.email == e) = some u →
        comparePassword p u.password = false →
        (loginHandler st none secret now
          { name := bn, email := some e, password := some p }).status = 401) := by
constructor
· intro h
  simp [loginHandler, findOneByEmail, h]
· intro u hu hc
  simp [loginHandler, findOneByEmail, hu, hc]

/-- C8 witness: a store with one user; login with an unknown email and
login with the right email but wrong password both reply 401. -/
theorem c8_login_unauthorized_witness :
    (loginHandler [sampleU1] none "s" 0
      { name := none, email := some "z@x.com", password := some "pw" }).status = 401
    ∧ (loginHandler [sampleU1] none "s" 0
        { name := none, email := some "a@x.com", password := some "wrong" }).status = 401 := by
have h1 := (c8_login_unauthorized [sampleU1] "s" 0 "z@x.com" "pw" none).1 (by decide)
have h2 := (c8_login_unauthorized [sampleU1] "s" 0 "a@x.com" "wrong" none).2
  sampleU1 (by decide) (by decide)
exact ⟨h1, h2⟩

/-- C10: on an id that is not a well-formed ObjectId (so no record can
exist for it), GET and DELETE reply 500 and PUT replies 400 — none of the
three replies 404 — and the store is untouched. -/
theorem c10_malformed_id (st : Store) (fault : Option String) (salt : Nat)
    (id : String) (body : ReqBody) (h : validObjectId id = false) :
    (getUserHandler st fault id).status = 500
    ∧ (deleteUserHandler st fault id).2.status = 500
    ∧ (deleteUserHandler st fault id).1 = st
    ∧ (updateUserHandler st fault salt id body).2.status = 400
    ∧ (updateUserHandler st fault salt id body).1 = st
    ∧ (getUserHandler st fault id).status ≠ 404
    ∧ (deleteUserHandler st fault id).2.status ≠ 404
    ∧ (updateUserHandler st fault salt id body).2.status ≠ 404 := by
have hget : (getUserHandler st fault id).status = 500 := by
  simp [getUserHandler, findById, h]
have hdel : (deleteUserHandler st fault id)
    = (st, Response.mk 500 (JVal.obj [("error", JVal.str "Failed to delete user")])) := by
  simp [deleteUserHandler, findByIdAndDelete, h]
have hupd : (updateUserHandler st fault salt id body)
    = (st, Response.mk 400 (JVal.obj [("error",
        JVal.str ("Cast to ObjectId failed for value " ++ id))])) := by
  simp [updateUserHandler, findByIdAndUpdate, h, DbErr.isDupKey, DbErr.message]
refine ⟨hget, by rw [hdel], by rw [hdel], by rw [hupd], by rw [hupd], ?_, ?_, ?_⟩
· rw [hget]; norm_num
· rw [hdel]; norm_num
· rw [hupd]; norm_num

/-- C10 witness: the malformed id "xyz" on an empty store. -/
theorem c10_malformed_id_witness :
    (getUserHandler [] none "xyz").status = 500
    ∧ (deleteUserHandler [] none "xyz").2.status = 500
    ∧ (deleteUserHandler [] none "xyz").1 = []
    ∧ (updateUserHandler [] none 0 "xyz"
        { name := none, email := none, password := none }).2.status = 400
    ∧ (updateUserHandler [] none 0 "xyz"
        { name := none, email := none, password := none }).1 = []
    ∧ (getUserHandler [] none "xyz").status ≠ 404
    ∧ (deleteUserHandler [] none "xyz").2.status ≠ 404
    ∧ (updateUserHandler [] none 0 "xyz"
        { name := none, email := none, password := none }).2.status ≠ 404 :=
c10_malformed_id [] none 0 "xyz"
  { name := none, email := none, password := none } (by decide)

/-- C4: no response body of the list, get-by-id or profile handlers, and no
response body of the create and update handlers (success or failure),
contains a `password` key anywhere. -/
theorem c4_no_password_in_responses (st : Store) (fault : Option String)
    (id : String) (secret : String) (now : Nat) (hdr : AuthHeader)
    (newId : String) (salt : Nat) (body : ReqBody) :
    noPw (getUsersHandler st fault).body = true
    ∧ noPw (getUserHandler st fault id).body = true
    ∧ noPw (profileHandler st fault secret now hdr).body = true
    ∧ noPw (createUserHandler st fault newId salt body).2.body = true
    ∧ noPw (updateUserHandler st fault salt id body).2.body = true := by
refine ⟨?_, ?_, ?_, ?_, ?_⟩
· unfold getUsersHandler
  split <;> simp [noPw, noPwFields, noPwElems_map_pubUserJson]
· unfold getUserHandler
  split <;> simp [noPw, noPwFields, pubUserJson]
· unfold profileHandler
  split
  · next r hr =>
    unfold authenticateToken at hr
    split at hr
    · injection hr with h2
      subst h2
      simp [noPw, noPwFields]
    · split at hr
      · injection hr with h2
        subst h2
        simp [noPw, noPwFields]
      · exact AuthOutcome.noConfusion hr
  · split <;> simp [noPw, noPwFields, pubUserJson]
· unfold createUserHandler
  split
  · simp [noPw, noPwFields, summaryUserJson]
  · split <;> simp [noPw, noPwFields]
· unfold updateUserHandler
  split
  · simp [noPw, noPwFields, summaryUserJson]
  · simp [noPw, noPwFields]
  · split <;> simp [noPw, noPwFields]

/-- Case analysis on the primitive behind PUT: a successful call either
found no document and returned the store unchanged, or it passed the
`runValidators` checks, hit no email collision, updated exactly the
matching record and returned it. -/
theorem findByIdAndUpdate_ok (st : Store) (fault : Option String) (id : String)
    (f : UpdFields) (st2 : Store) (ou : Option UserRec)
    (h : findByIdAndUpdate st fault id f = Except.ok (st2, ou)) :
    (st2 = st ∧ ou = none)
    ∨ (st2 = st.map (fun q => if q.id == id then applyUpd f q else q)
       ∧ f.name ≠ some "" ∧ f.email ≠ some ""
       ∧ (∃ r, st.find? (fun q => q.id == id) = some r ∧ ou = some (applyUpd f r))
       ∧ (∀ e, f.email = some e → ∀ q ∈ st, q.email = e → q.id = id)) := by
unfold findByIdAndUpdate at h
split at h
· exact Except.noConfusion h
· rename_i hvalid
  split at h
  · exact Except.noConfusion h
  · rename_i hname
    split at h
    · exact Except.noConfusion h
    · rename_i hemail
      split at h
      · exact Except.noConfusion h
      · split at h
        · injection h with h2
          injection h2 with ha hb
          left
          exact ⟨ha.symm, hb.symm⟩
        · rename_i r hfind
          split at h
          · rename_i e hfe
            split at h
            · exact Except.noConfusion h
            · rename_i hany
              injection h with h2
              injection h2 with ha hb
              right
              refine ⟨ha.symm, hname, hemail, ⟨r, hfind, hb.symm⟩, ?_⟩
              intro e2 he2 q hq hqe
              rw [hfe] at he2
              injection he2 with hee
              subst hee
              by_contra hne
              exact hany (List.any_eq_true.2 ⟨q, hq, by simp [hqe, hne]⟩)
          · rename_i hfe
            injection h with h2
            injection h2 with ha hb
            right
            refine ⟨ha.symm, hname, hemail, ⟨r, hfind, hb.symm⟩, ?_⟩
            intro e2 he2
            rw [hfe] at he2
            exact absurd he2 (by simp)

/-- C1 counterexample: a PUT whose body supplies none of name/email/password
on an existing record replies 200 ("User updated successfully"), not 400:
the handler performs no presence validation, `updateFields` only carries
`undefined` values, Mongoose strips them, and the no-op update succeeds. -/
theorem c1_counterexample :
    (updateUserHandler [sampleU1] none 0 sampleId
      { name := none, email := none, password := none }).2.status = 200
    ∧ (updateUserHandler [sampleU1] none 0 sampleId
        { name := none, email := none, password := none }).1 = [sampleU1] := by
constructor
· decide
· decide

/-- C1 amended: a PUT whose body supplies none of name/email/password always
leaves the store unchanged, and — absent a storage failure, when the id is a
well-formed ObjectId resolving to a record — replies 200, not 400. -/
theorem c1_empty_update_amended (st : Store) (fault : Option String)
    (salt : Nat) (id : String) :
    (updateUserHandler st fault salt id
      { name := none, email := none, password := none }).1 = st
    ∧ (fault = none → validObjectId id = true → (∃ r ∈ st, r.id = id) →
        (updateUserHandler st fault salt id
          { name := none, email := none, password := none }).2.status = 200) := by
have hf : mkUpdateFields salt { name := none, email := none, password := none }
    = { name := none, email := none, password := none } := rfl
constructor
· unfold updateUserHandler
  rw [hf]
  rcases hcall : findByIdAndUpdate st fault id
      { name := none, email := none, password := none } with e | ⟨st2, ou⟩
  · rfl
  · have hst2 : st2 = st := by
      rcases findByIdAndUpdate_ok st fault id _ st2 ou hcall with ⟨h1, _⟩ | ⟨h1, _⟩
      · exact h1
      · rw [h1]
        simp [applyUpd_nil]
    cases ou <;> (subst hst2; rfl)
· intro hfault hvalid hex
  obtain ⟨r, hr, hrid⟩ := hex
  have hsome : ((st.find? (fun q => q.id == id)).isSome) = true :=
    List.find?_isSome.2 ⟨r, hr, by simp [hrid]⟩
  obtain ⟨u, hu⟩ := Option.isSome_iff_exists.1 hsome
  subst hfault
  simp [updateUserHandler, hf, findByIdAndUpdate, hvalid, hu]

/-- C1 amended, witness: the concrete single-user store. -/
theorem c1_empty_update_amended_witness :
    (updateUserHandler [sampleU1] none 0 sampleId
      { name := none, email := none, password := none }).1 = [sampleU1]
    ∧ (updateUserHandler [sampleU1] none 0 sampleId
        { name := none, email := none, password := none }).2.status = 200 := by
have h := c1_empty_update_amended [sampleU1] none 0 sampleId
exact ⟨h.1, h.2 rfl (by decide) ⟨sampleU1, by simp, rfl⟩⟩

/-- C7 counterexample: (1) a profile request carrying an `Authorization`
header whose value is the empty string carries no bearer token, yet is
answered 403, not 401, because `"" && "".split(' ')[1]` evaluates to `""`
and `"" == null` is false, so the middleware hands `""` to `jwt.verify`;
(2) with a valid token but a storage failure the reply is 500, which the
claim's case split does not admit. -/
theorem c7_counterexample :
    (profileHandler [] none "s" 0 AuthHeader.emptyVal).status = 403
    ∧ (profileHandler [sampleU1] (some "connection lost") "s" 0
        (AuthHeader.schemeTok "Bearer" (WireTok.good (issueTok "s" sampleId 0)))).status
      = 500 := by
constructor
· decide
· decide

/-- C7 amended: absence of the Authorization header, or a non-empty header
value with no second space-separated part, yields 401; an empty-string
header value — like any present but unverifiable or expired token — yields
403; a valid token whose embedded userId (a well-formed id) no longer
resolves to a stored user yields 404 absent storage failure; otherwise,
absent storage failure, 200 with that user. -/
theorem c7_profile_statuses_amended (st : Store) (fault : Option String)
    (secret sch : String) (now : Nat) :
    (profileHandler st fault secret now AuthHeader.missing).status = 401
    ∧ (∀ w, (profileHandler st fault secret now (AuthHeader.schemeOnly w)).status = 401)
    ∧ (profileHandler st fault secret now AuthHeader.emptyVal).status = 403
    ∧ (∀ w, jwtVerify secret now w = none →
        (profileHandler st fault secret now (AuthHeader.schemeTok sch w)).status = 403)
    ∧ (∀ w uid, jwtVerify secret now w = some uid → validObjectId uid = true →
        st.find? (fun r => r.id == uid) = none →
        (profileHandler st none secret now (AuthHeader.schemeTok sch w)).status = 404)
    ∧ (∀ w uid u, jwtVerify secret now w = some uid → validObjectId uid = true →
        st.find? (fun r => r.id == uid) = some u →
        (profileHandler st none secret now (AuthHeader.schemeTok sch w))
          = Response.mk 200 (JVal.obj [("message", JVal.str "Access granted"),
              ("user", pubUserJson u)])) := by
refine ⟨?_, ?_, ?_, ?_, ?_, ?_⟩
· simp [profileHandler, authenticateToken, extractTok]
· intro w
  simp [profileHandler, authenticateToken, extractTok]
· simp [profileHandler, authenticateToken, extractTok, jwtVerify]
· intro w hw
  simp [profileHandler, authenticateToken, extractTok, hw]
· intro w uid hw hvalid hfind
  simp [profileHandler, authenticateToken, extractTok, hw, findById, hvalid, hfind]
· intro w uid u hw hvalid hfind
  simp [profileHandler, authenticateToken, extractTok, hw, findById, hvalid, hfind]

/-- C7 amended, witness: each case at a concrete store, secret and time. -/
theorem c7_profile_statuses_amended_witness :
    (profileHandler [sampleU1] none "s" 0 AuthHeader.missing).status = 401
    ∧ (profileHandler [sampleU1] none "s" 0 (AuthHeader.schemeOnly "Bearer")).status = 401
    ∧ (profileHandler [sampleU1] none "s" 0 AuthHeader.emptyVal).status = 403
    ∧ (profileHandler [sampleU1] none "s" 0
        (AuthHeader.schemeTok "Bearer" (WireTok.garbage "zz"))).status = 403
    ∧ (profileHandler [sampleU1] none "s" 0
        (AuthHeader.schemeTok "Bearer" (WireTok.good (issueTok "s" sampleId2 0)))).status = 404
    ∧ (profileHandler [sampleU1] none "s" 0
        (AuthHeader.schemeTok "Bearer" (WireTok.good (issueTok "s" sampleId 0))))
      = Response.mk 200 (JVal.obj [("message", JVal.str "Access granted"),
          ("user", pubUserJson sampleU1)]) := by
have h := c7_profile_statuses_amended [sampleU1] none "s" "Bearer" 0
refine ⟨h.1, h.2.1 "Bearer", h.2.2.1, ?_, ?_, ?_⟩
· exact h.2.2.2.1 (WireTok.garbage "zz") (by decide)
· exact h.2.2.2.2.1 (WireTok.good (issueTok "s" sampleId2 0)) sampleId2
    (by decide) (by decide) (by decide)
· exact h.2.2.2.2.2 (WireTok.good (issueTok "s" sampleId 0)) sampleId sampleU1
    (by decide) (by decide) (by decide)

/-- C9 counterexample: a storage failure with message "connection lost"
during an otherwise valid create is answered with status 400 and body
`error: "connection lost"` — the collaborator's raw error message reaches
the client verbatim (`res.status(400).json(error error.message)`). -/
theorem c9_counterexample :
    (createUserHandler [] (some "connection lost") sampleId 5
      { name := some "Alice", email := some "a@x.com", password := some "pw" }).2
      = Response.mk 400 (JVal.obj [("error", JVal.str "connection lost")]) := by
rfl

/-- C9 amended: every handler catches every collaborator failure and always
responds with one of its fixed status codes (no failure escapes), but the
create and update handlers' fallback 400 branch copies the collaborator's
raw error message into the response body under the `error` key. -/
theorem c9_error_translation_amended (st : Store) (fault : Option String)
    (newId : String) (salt : Nat) (id : String) (body : ReqBody)
    (secret : String) (now : Nat) (hdr : AuthHeader) :
    (getUsersHandler st fault).status ∈ [200, 500]
    ∧ (getUserHandler st fault id).status ∈ [200, 404, 500]
    ∧ (createUserHandler st fault newId salt body).2.status ∈ [201, 400, 409]
    ∧ (updateUserHandler st fault salt id body).2.status ∈ [200, 400, 404, 409]
    ∧ (deleteUserHandler st fault id).2.status ∈ [200, 404, 500]
    ∧ (loginHandler st fault secret now body).status ∈ [200, 401, 500]
    ∧ (profileHandler st fault secret now hdr).status ∈ [200, 401, 403, 404, 500]
    ∧ (∀ m, requiredOk body.name = true → requiredOk body.email = true →
        requiredOk body.password = true →
        (createUserHandler st (some m) newId salt body).2
          = Response.mk 400 (JVal.obj [("error", JVal.str m)]))
    ∧ (∀ m, validObjectId id = true → body.name ≠ some "" → body.email ≠ some "" →
        (updateUserHandler st (some m) salt id body).2
          = Response.mk 400 (JVal.obj [("error", JVal.str m)])) := by
refine ⟨getUsersStatus_mem st fault, getUserStatus_mem st fault id,
  createStatus_mem st fault newId salt body, updateStatus_mem st fault salt id body,
  deleteStatus_mem st fault id, loginStatus_mem st fault secret now body,
  profileStatus_mem st fault secret now hdr, ?_, ?_⟩
· intro m hn he hp
  simp [createUserHandler, saveNewUser, hn, he, hp, DbErr.isDupKey, DbErr.message]
· intro m hvalid hn he
  have hn2 : (mkUpdateFields salt body).name ≠ some "" := hn
  have he2 : (mkUpdateFields salt body).email ≠ some "" := he
  simp [updateUserHandler, findByIdAndUpdate, hvalid, hn2, he2,
    DbErr.isDupKey, DbErr.message]

/-- C9 amended, witness: the status sets at a storage-faulted request, and
the two leaking branches, at concrete inputs. -/
theorem c9_error_translation_amended_witness :
    (getUsersHandler [sampleU1] (some "boom")).status ∈ [200, 500]
    ∧ (getUserHandler [sampleU1] (some "boom") sampleId).status ∈ [200, 404, 500]
    ∧ (createUserHandler [sampleU1] (some "boom") sampleId2 5
        { name := some "Bob", email := some "b@x.com", password := some "pw2" }).2.status
      ∈ [201, 400, 409]
    ∧ (updateUserHandler [sampleU1] (some "boom") 5 sampleId
        { name := some "Al", email := none, password := none }).2.status
      ∈ [200, 400, 404, 409]
    ∧ (deleteUserHandler [sampleU1] (some "boom") sampleId).2.status ∈ [200, 404, 500]
    ∧ (loginHandler [sampleU1] (some "boom") "s" 0
        { name := none, email := some "a@x.com", password := some "pw" }).status
      ∈ [200, 401, 500]
    ∧ (profileHandler [sampleU1] (some "boom") "s" 0 AuthHeader.missing).status
      ∈ [200, 401, 403, 404, 500]
    ∧ (createUserHandler [sampleU1] (some "boom") sampleId2 5
        { name := some "Bob", email := some "b@x.com", password := some "pw2" }).2
      = Response.mk 400 (JVal.obj [("error", JVal.str "boom")])
    ∧ (updateUserHandler [sampleU1] (some "boom") 5 sampleId
        { name := some "Al", email := none, password := none }).2
      = Response.mk 400 (JVal.obj [("error", JVal.str "boom")]) := by
have h := c9_error_translation_amended [sampleU1] (some "boom") sampleId2 5 sampleId
  { name := some "Bob", email := some "b@x.com", password := some "pw2" } "s" 0
  AuthHeader.missing
have h2 := c9_error_translation_amended [sampleU1] (some "boom") sampleId2 5 sampleId
  { name := some "Al", email := none, password := none } "s" 0 AuthHeader.missing
refine ⟨h.1, h.2.1, h.2.2.1, h2.2.2.2.1, h.2.2.2.2.1, ?_, h.2.2.2.2.2.2.1, ?_, ?_⟩
· exact (c9_error_translation_amended [sampleU1] (some "boom") sampleId2 5 sampleId
    { name := none, email := some "a@x.com", password := some "pw" } "s" 0
    AuthHeader.missing).2.2.2.2.2.1
· exact h.2.2.2.2.2.2.2.1 "boom" (by decide) (by decide) (by decide)
· exact h2.2.2.2.2.2.2.2.2 "boom" (by decide) (by decide) (by decide)

/-- A falsy body password contributes no `password` key to the update. -/
theorem mkUpdateFields_pw_none (salt : Nat) (body : ReqBody)
    (h : truthy body.password = false) :
    (mkUpdateFields salt body).password = none := by
cases hb : body.password with
| none => simp [mkUpdateFields, hb]
| some p =>
  have hp : p = "" := by simpa [truthy, hb] using h
  simp [mkUpdateFields, hb, hp]

/-- C2: an update modifies only the record addressed by the id; records
with other ids survive unchanged; and on the addressed record each field
whose body value is absent or falsy keeps its stored value — whatever the
outcome of the request. -/
theorem c2_partial_update_frame (st : Store) (fault : Option String)
    (salt : Nat) (id : String) (body : ReqBody) :
    (∀ r ∈ st, r.id ≠ id → r ∈ (updateUserHandler st fault salt id body).1)
    ∧ (∀ r ∈ st, r.id = id →
        ∃ r2 ∈ (updateUserHandler st fault salt id body).1, r2.id = id
          ∧ (truthy body.name = false → r2.name = r.name)
          ∧ (truthy body.email = false → r2.email = r.email)
          ∧ (truthy body.password = false → r2.password = r.password)) := by
have hstore : (updateUserHandler st fault salt id body).1 = st
    ∨ ((updateUserHandler st fault salt id body).1
        = st.map (fun q =>
            if q.id == id then applyUpd (mkUpdateFields salt body) q else q)
       ∧ (mkUpdateFields salt body).name ≠ some ""
       ∧ (mkUpdateFields salt body).email ≠ some "") := by
  unfold updateUserHandler
  rcases hcall : findByIdAndUpdate st fault id (mkUpdateFields salt body)
    with e | ⟨st2, ou⟩
  · left
    rfl
  · rcases findByIdAndUpdate_ok st fault id _ st2 ou hcall
      with ⟨h1, h2⟩ | ⟨h1, hname, hemail, ⟨r, hfind, hou⟩, _⟩
    · subst h2
      subst h1
      left
      rfl
    · subst hou
      subst h1
      right
      exact ⟨rfl, hname, hemail⟩
constructor
· intro r hr hrne
  rcases hstore with h | ⟨h, _, _⟩
  · rw [h]
    exact hr
  · rw [h]
    exact List.mem_map.2 ⟨r, hr, by simp [hrne]⟩
· intro r hr hrid
  rcases hstore with h | ⟨h, hname, hemail⟩
  · refine ⟨r, ?_, hrid, fun _ => rfl, fun _ => rfl, fun _ => rfl⟩
    rw [h]
    exact hr
  · refine ⟨applyUpd (mkUpdateFields salt body) r, ?_, ?_, ?_, ?_, ?_⟩
    · rw [h]
      exact List.mem_map.2 ⟨r, hr, by simp [hrid]⟩
    · rw [applyUpd_id]
      exact hrid
    · intro hfalsy
      rcases truthy_eq_false.1 hfalsy with h0 | h0
      · simp [applyUpd, mkUpdateFields, h0]
      · exact absurd (show (mkUpdateFields salt body).name = some "" from h0) hname
    · intro hfalsy
      rcases truthy_eq_false.1 hfalsy with h0 | h0
      · simp [applyUpd, mkUpdateFields, h0]
      · exact absurd (show (mkUpdateFields salt body).email = some "" from h0) hemail
    · intro hfalsy
      simp [applyUpd, mkUpdateFields_pw_none salt body hfalsy]

/-- C2 witness: updating only the email of the first of two users leaves
the second user intact and keeps the first user's name and password. -/
theorem c2_partial_update_frame_witness :
    sampleU2 ∈ (updateUserHandler [sampleU1, sampleU2] none 0 sampleId
      { name := none, email := some "new@x.com", password := none }).1
    ∧ ∃ r2 ∈ (updateUserHandler [sampleU1, sampleU2] none 0 sampleId
        { name := none, email := some "new@x.com", password := none }).1,
      r2.id = sampleId ∧ r2.name = sampleU1.name
        ∧ r2.password = sampleU1.password := by
have h := c2_partial_update_frame [sampleU1, sampleU2] none 0 sampleId
  { name := none, email := some "new@x.com", password := none }
refine ⟨h.1 sampleU2 (by simp) (by decide), ?_⟩
obtain ⟨r2, hmem, hid, hn, _, hp⟩ := h.2 sampleU1 (by simp) rfl
exact ⟨r2, hmem, hid, hn (by decide), hp (by decide)⟩

/-- Case analysis on the primitive behind POST: a successful save passed
the three `required` checks, hashed the client password once, found no
record with the requested email, and appended the new record. -/
theorem saveNewUser_ok (st : Store) (fault : Option String) (newId : String)
    (salt : Nat) (body : ReqBody) (st2 : Store) (u : UserRec)
    (h : saveNewUser st fault newId salt body = Except.ok (st2, u)) :
    st2 = st ++ [u]
    ∧ u = { id := newId, name := body.name.getD "", email := body.email.getD "",
            password := PwVal.hashed salt (PwVal.plain (body.password.getD "")) }
    ∧ (∃ p, body.password = some p ∧ p ≠ "")
    ∧ (∀ q ∈ st, q.email ≠ body.email.getD "") := by
unfold saveNewUser at h
split at h
· exact Except.noConfusion h
· rename_i hn
  split at h
  · exact Except.noConfusion h
  · rename_i he
    split at h
    · exact Except.noConfusion h
    · rename_i hp
      split at h
      · exact Except.noConfusion h
      · split at h
        · exact Except.noConfusion h
        · rename_i hany
          injection h with h2
          injection h2 with ha hb
          refine ⟨by rw [← hb]; exact ha.symm, hb.symm, ?_, ?_⟩
          · simp only [Bool.not_eq_true, Bool.not_eq_false'] at hp
            exact requiredOk_iff.1 hp
          · intro q hq
            simp only [List.any_eq_true, not_exists, not_and, beq_iff_eq] at hany
            exact hany q hq

/-- The store invariant survives a create: a successful save only inserts a
record whose generated id is fresh and whose email collides with nobody. -/
theorem distinctRecs_create (st : Store) (fault : Option String)
    (newId : String) (salt : Nat) (body : ReqBody) (hst : distinctRecs st)
    (hfresh : ∀ r ∈ st, r.id ≠ newId) :
    distinctRecs (createUserHandler st fault newId salt body).1 := by
unfold createUserHandler
rcases hcall : saveNewUser st fault newId salt body with e | ⟨st2, u⟩
· exact hst
· obtain ⟨h1, hu, _, hnodup⟩ := saveNewUser_ok st fault newId salt body st2 u hcall
  subst h1
  show distinctRecs (st ++ [u])
  unfold distinctRecs
  rw [List.pairwise_append]
  refine ⟨hst, List.pairwise_singleton _ _, ?_⟩
  intro a ha b hb
  rw [List.mem_singleton] at hb
  subst hb
  constructor
  · rw [hu]
    exact hfresh a ha
  · rw [hu]
    exact hnodup a ha

/-- Rewriting only the addressed record, with an email that collides with
no other record, keeps ids and emails pairwise distinct. -/
theorem distinctRecs_map_upd (st : Store) (id : String) (f : UpdFields)
    (hst : distinctRecs st)
    (hno : ∀ e, f.email = some e → ∀ q ∈ st, q.email = e → q.id = id) :
    distinctRecs (st.map (fun q => if q.id == id then applyUpd f q else q)) := by
unfold distinctRecs
rw [List.pairwise_map]
refine hst.imp_of_mem ?_
intro a b ha hb hab
obtain ⟨hid, hem⟩ := hab
have gaid : (if a.id == id then applyUpd f a else a).id = a.id := by
  split
  · exact applyUpd_id f a
  · rfl
have gbid : (if b.id == id then applyUpd f b else b).id = b.id := by
  split
  · exact applyUpd_id f b
  · rfl
constructor
· rw [gaid, gbid]
  exact hid
· cases hfe : f.email with
  | none =>
    have ga : (if a.id == id then applyUpd f a else a).email = a.email := by
      split
      · simp [applyUpd, hfe]
      · rfl
    have gb : (if b.id == id then applyUpd f b else b).email = b.email := by
      split
      · simp [applyUpd, hfe]
      · rfl
    rw [ga, gb]
    exact hem
  | some e =>
    by_cases haid : a.id = id
    · by_cases hbid : b.id = id
      · exact absurd (haid.trans hbid.symm) hid
      · have ga : (if a.id == id then applyUpd f a else a).email = e := by
          simp [haid, applyUpd, hfe]
        have gb : (if b.id == id then applyUpd f b else b).email = b.email := by
          simp [hbid]
        rw [ga, gb]
        intro hbe
        exact hbid (hno e hfe b hb hbe.symm)
    · by_cases hbid : b.id = id
      · have ga : (if a.id == id then applyUpd f a else a).email = a.email := by
          simp [haid]
        have gb : (if b.id == id then applyUpd f b else b).email = e := by
          simp [hbid, applyUpd, hfe]
        rw [ga, gb]
        intro hae
        exact haid (hno e hfe a ha hae)
      · have ga : (if a.id == id then applyUpd f a else a).email = a.email := by
          simp [haid]
        have gb : (if b.id == id then applyUpd f b else b).email = b.email := by
          simp [hbid]
        rw [ga, gb]
        exact hem

/-- The store invariant survives an update. -/
theorem distinctRecs_update (st : Store) (fault : Option String) (salt : Nat)
    (id : String) (body : ReqBody) (hst : distinctRecs st) :
    distinctRecs (updateUserHandler st fault salt id body).1 := by
unfold updateUserHandler
rcases hcall : findByIdAndUpdate st fault id (mkUpdateFields salt body)
  with e | ⟨st2, ou⟩
· exact hst
· rcases findByIdAndUpdate_ok st fault id _ st2 ou hcall
    with ⟨h1, h2⟩ | ⟨h1, _, _, _, hno⟩
  · subst h2
    subst h1
    exact hst
  · subst h1
    cases ou
    · exact distinctRecs_map_upd st id _ hst hno
    · exact distinctRecs_map_upd st id _ hst hno

/-- The store invariant survives a delete. -/
theorem distinctRecs_delete (st : Store) (fault : Option String) (id : String)
    (hst : distinctRecs st) :
    distinctRecs (deleteUserHandler st fault id).1 := by
unfold deleteUserHandler
rcases hcall : findByIdAndDelete st fault id with e | ⟨st2, ou⟩
· exact hst
· unfold findByIdAndDelete at hcall
  split at hcall
  · exact Except.noConfusion hcall
  · split at hcall
    · exact Except.noConfusion hcall
    · split at hcall
      · injection hcall with h2
        injection h2 with ha hb
        subst ha
        subst hb
        exact hst
      · injection hcall with h2
        injection h2 with ha hb
        subst ha
        subst hb
        exact List.Pairwise.filter _ hst

/-- C3: a create or update whose requested email already belongs to a
different existing record (the request being otherwise valid) is answered
409 with the store unchanged; create and update can never answer 500; and
the store invariant — in particular that no two stored records share an
email — is preserved by create, update and delete. -/
theorem c3_duplicate_email (st : Store) (fault : Option String)
    (newId : String) (salt : Nat) (id : String) (body : ReqBody) :
    (∀ e, body.email = some e → e ≠ "" → requiredOk body.name = true →
      requiredOk body.password = true → (∃ q ∈ st, q.email = e) →
      (createUserHandler st none newId salt body).2.status = 409
      ∧ (createUserHandler st none newId salt body).1 = st)
    ∧ (∀ e, body.email = some e → e ≠ "" → body.name ≠ some "" →
        validObjectId id = true → (∃ r ∈ st, r.id = id) →
        (∃ q ∈ st, q.email = e ∧ q.id ≠ id) →
        (updateUserHandler st none salt id body).2.status = 409
        ∧ (updateUserHandler st none salt id body).1 = st)
    ∧ (createUserHandler st fault newId salt body).2.status ≠ 500
    ∧ (updateUserHandler st fault salt id body).2.status ≠ 500
    ∧ ((distinctRecs st ∧ ∀ r ∈ st, r.id ≠ newId) →
        distinctRecs (createUserHandler st fault newId salt body).1)
    ∧ (distinctRecs st → distinctRecs (updateUserHandler st fault salt id body).1)
    ∧ (distinctRecs st → distinctRecs (deleteUserHandler st fault id).1) := by
refine ⟨?_, ?_, ?_, ?_, fun h => distinctRecs_create st fault newId salt body h.1 h.2,
  fun h => distinctRecs_update st fault salt id body h,
  fun h => distinctRecs_delete st fault id h⟩
· intro e he hne hn hp hex
  obtain ⟨q, hq, hqe⟩ := hex
  have he2 : requiredOk body.email = true := by
    rw [he]
    simpa [requiredOk] using hne
  have hany : st.any (fun r => r.email == body.email.getD "") = true := by
    rw [he]
    exact List.any_eq_true.2 ⟨q, hq, by simp [hqe]⟩
  refine ⟨?_, ?_⟩ <;>
    simp [createUserHandler, saveNewUser, hn, he2, hp, hany, DbErr.isDupKey]
· intro e he hne hnm hvalid hex hcol
  obtain ⟨r, hr, hrid⟩ := hex
  obtain ⟨q, hq, hqe, hqid⟩ := hcol
  have hn2 : (mkUpdateFields salt body).name ≠ some "" := hnm
  have he2 : (mkUpdateFields salt body).email = some e := he
  have hee : ¬((mkUpdateFields salt body).email = some "") := by
    rw [he2]
    simp [hne]
  have hsome : (st.find? (fun z => z.id == id)).isSome = true :=
    List.find?_isSome.2 ⟨r, hr, by simp [hrid]⟩
  obtain ⟨u, hu⟩ := Option.isSome_iff_exists.1 hsome
  have hany : st.any (fun z => z.email == e && z.id != id) = true :=
    List.any_eq_true.2 ⟨q, hq, by simp [hqe, hqid]⟩
  refine ⟨?_, ?_⟩ <;>
    simp [updateUserHandler, findByIdAndUpdate, hvalid, hn2, hee, hu, he2, hany, hne,
      DbErr.isDupKey]
· intro h5
  have hc := createStatus_mem st fault newId salt body
  rw [h5] at hc
  simp at hc
· intro h5
  have hup := updateStatus_mem st fault salt id body
  rw [h5] at hup
  simp at hup

/-- C3 witness: a duplicate-email create and update on concrete stores each
reply 409 leaving the store unchanged, no 500 is produced, and the
invariant holds on the concrete results. -/
theorem c3_duplicate_email_witness :
    ((createUserHandler [sampleU1] none sampleId2 5
        { name := some "Bob", email := some "a@x.com", password := some "pw2" }).2.status = 409
      ∧ (createUserHandler [sampleU1] none sampleId2 5
          { name := some "Bob", email := some "a@x.com", password := some "pw2" }).1 = [sampleU1])
    ∧ ((updateUserHandler [sampleU1, sampleU2] none 5 sampleId
          { name := none, email := some "b@x.com", password := none }).2.status = 409
      ∧ (updateUserHandler [sampleU1, sampleU2] none 5 sampleId
          { name := none, email := some "b@x.com", password := none }).1 = [sampleU1, sampleU2])
    ∧ (createUserHandler [sampleU1] none sampleId2 5
        { name := some "Bob", email := some "b@x.com", password := some "pw2" }).2.status ≠ 500
    ∧ (updateUserHandler [sampleU1, sampleU2] none 5 sampleId
        { name := none, email := some "b@x.com", password := none }).2.status ≠ 500
    ∧ distinctRecs (createUserHandler [sampleU1] none sampleId2 5
        { name := some "Bob", email := some "b@x.com", password := some "pw2" }).1
    ∧ distinctRecs (updateUserHandler [sampleU1, sampleU2] none 5 sampleId
        { name := none, email := some "c@x.com", password := none }).1
    ∧ distinctRecs (deleteUserHandler [sampleU1, sampleU2] none sampleId).1 := by
have ha := (c3_duplicate_email [sampleU1] none sampleId2 5 sampleId
  { name := some "Bob", email := some "a@x.com", password := some "pw2" }).1
  "a@x.com" rfl (by decide) (by decide) (by decide) ⟨sampleU1, by simp, by decide⟩
have hb := (c3_duplicate_email [sampleU1, sampleU2] none sampleId2 5 sampleId
  { name := none, email := some "b@x.com", password := none }).2.1
  "b@x.com" rfl (by decide) (by decide) (by decide) ⟨sampleU1, by simp, by decide⟩
  ⟨sampleU2, by simp, by decide, by decide⟩
have hc := (c3_duplicate_email [sampleU1] none sampleId2 5 sampleId
  { name := some "Bob", email := some "b@x.com", password := some "pw2" }).2.2.1
have hd := (c3_duplicate_email [sampleU1, sampleU2] none sampleId2 5 sampleId
  { name := none, email := some "b@x.com", password := none }).2.2.2.1
have hinv1 := (c3_duplicate_email [sampleU1] none sampleId2 5 sampleId
  { name := some "Bob", email := some "b@x.com", password := some "pw2" }).2.2.2.2.1
  ⟨by unfold distinctRecs; decide, by decide⟩
have hinv2 := (c3_duplicate_email [sampleU1, sampleU2] none sampleId2 5 sampleId
  { name := none, email := some "c@x.com", password := none }).2.2.2.2.2.1
  (by unfold distinctRecs; decide)
have hinv3 := (c3_duplicate_email [sampleU1, sampleU2] none sampleId2 5 sampleId
  { name := none, email := some "c@x.com", password := none }).2.2.2.2.2.2
  (by unfold distinctRecs; decide)
exact ⟨ha, hb, hc, hd, hinv1, hinv2, hinv3⟩

/-- C5: a record stored by a successful create carries the client's
password hashed exactly once (`hashed salt (plain p)`); a record changed by
an update whose body password is truthy carries the new plaintext hashed
exactly once; an update whose body password is absent or falsy preserves
every stored password; and a hash is never the plaintext that was sent. -/
theorem c5_password_hashing (st : Store) (fault : Option String)
    (newId : String) (salt : Nat) (id : String) (bodyC bodyU : ReqBody) :
    (∀ r, r ∈ (createUserHandler st fault newId salt bodyC).1 → r ∉ st →
      ∃ p, bodyC.password = some p ∧ r.password = PwVal.hashed salt (PwVal.plain p))
    ∧ (∀ p, bodyU.password = some p → p ≠ "" →
        ∀ r2, r2 ∈ (updateUserHandler st fault salt id bodyU).1 → r2 ∉ st →
          r2.password = PwVal.hashed salt (PwVal.plain p))
    ∧ (truthy bodyU.password = false →
        ∀ r2 ∈ (updateUserHandler st fault salt id bodyU).1,
          ∃ r ∈ st, r.id = r2.id ∧ r.password = r2.password)
    ∧ (∀ s p, PwVal.hashed s (PwVal.plain p) ≠ PwVal.plain p) := by
refine ⟨?_, ?_, ?_, fun s p h => PwVal.noConfusion h⟩
· intro r hr hnot
  unfold createUserHandler at hr
  rcases hcall : saveNewUser st fault newId salt bodyC with e | ⟨st2, u⟩
  · rw [hcall] at hr
    exact absurd (show r ∈ st from hr) hnot
  · rw [hcall] at hr
    obtain ⟨h1, hu, ⟨p, hp, hpne⟩, _⟩ :=
      saveNewUser_ok st fault newId salt bodyC st2 u hcall
    subst h1
    rcases List.mem_append.1 (show r ∈ st ++ [u] from hr) with h | h
    · exact absurd h hnot
    · rw [List.mem_singleton] at h
      subst h
      refine ⟨p, hp, ?_⟩
      rw [hu]
      simp [hp]
· intro p hp hpne r2 hr2 hnot
  unfold updateUserHandler at hr2
  rcases hcall : findByIdAndUpdate st fault id (mkUpdateFields salt bodyU)
    with e | ⟨st2, ou⟩
  · rw [hcall] at hr2
    exact absurd (show r2 ∈ st from hr2) hnot
  · rw [hcall] at hr2
    rcases findByIdAndUpdate_ok st fault id _ st2 ou hcall
      with ⟨h1, h2⟩ | ⟨h1, _, _, _, _⟩
    · subst h2
      rw [h1] at hr2
      exact absurd (show r2 ∈ st from hr2) hnot
    · subst h1
      have hpw : (mkUpdateFields salt bodyU).password
          = some (PwVal.hashed salt (PwVal.plain p)) := by
        simp [mkUpdateFields, hp, hpne]
      have hr3 : r2 ∈ st.map (fun q =>
          if q.id == id then applyUpd (mkUpdateFields salt bodyU) q else q) := by
        cases ou
        · exact hr2
        · exact hr2
      obtain ⟨r0, hr0, hg⟩ := List.mem_map.1 hr3
      by_cases hid0 : r0.id = id
      · rw [← hg]
        simp [hid0, applyUpd, hpw]
      · have hkeep : (if r0.id == id then applyUpd (mkUpdateFields salt bodyU) r0
            else r0) = r0 := by
          simp [hid0]
        rw [hkeep] at hg
        subst hg
        exact absurd hr0 hnot
· intro hfalsy r2 hr2
  unfold updateUserHandler at hr2
  rcases hcall : findByIdAndUpdate st fault id (mkUpdateFields salt bodyU)
    with e | ⟨st2, ou⟩
  · rw [hcall] at hr2
    exact ⟨r2, hr2, rfl, rfl⟩
  · rw [hcall] at hr2
    rcases findByIdAndUpdate_ok st fault id _ st2 ou hcall
      with ⟨h1, h2⟩ | ⟨h1, _, _, _, _⟩
    · subst h2
      subst h1
      exact ⟨r2, hr2, rfl, rfl⟩
    · subst h1
      have hr3 : r2 ∈ st.map (fun q =>
          if q.id == id then applyUpd (mkUpdateFields salt bodyU) q else q) := by
        cases ou
        · exact hr2
        · exact hr2
      obtain ⟨r0, hr0, hg⟩ := List.mem_map.1 hr3
      refine ⟨r0, hr0, ?_, ?_⟩
      · rw [← hg]
        split
        · exact (applyUpd_id _ _).symm
        · rfl
      · rw [← hg]
        split
        · simp [applyUpd, mkUpdateFields_pw_none salt bodyU hfalsy]
        · rfl

/-- C5 witness: a concrete create stores the once-hashed password; a
concrete password update stores the new once-hashed password; a concrete
name-only update preserves the stored hash; the hash differs from the
plaintext. -/
theorem c5_password_hashing_witness :
    (UserRec.mk sampleId2 "Bob" "b@x.com" (PwVal.hashed 7 (PwVal.plain "pw2"))).password
      = PwVal.hashed 7 (PwVal.plain "pw2")
    ∧ (UserRec.mk sampleId "Alice" "a@x.com" (PwVal.hashed 9 (PwVal.plain "newpw"))).password
      = PwVal.hashed 9 (PwVal.plain "newpw")
    ∧ sampleU1.password
      = (UserRec.mk sampleId "Alicia" "a@x.com" (PwVal.hashed 3 (PwVal.plain "pw"))).password
    ∧ PwVal.hashed 3 (PwVal.plain "pw") ≠ PwVal.plain "pw" := by
refine ⟨?_, ?_, ?_, ?_⟩
· obtain ⟨p, hp, hpw⟩ := (c5_password_hashing [] none sampleId2 7 sampleId
    { name := some "Bob", email := some "b@x.com", password := some "pw2" }
    { name := none, email := none, password := none }).1
    (UserRec.mk sampleId2 "Bob" "b@x.com" (PwVal.hashed 7 (PwVal.plain "pw2")))
    (by decide) (by decide)
  injection hp with hp2
  subst hp2
  exact hpw
· exact (c5_password_hashing [sampleU1] none sampleId2 9 sampleId
    { name := none, email := none, password := none }
    { name := none, email := none, password := some "newpw" }).2.1
    "newpw" rfl (by decide)
    (UserRec.mk sampleId "Alice" "a@x.com" (PwVal.hashed 9 (PwVal.plain "newpw")))
    (by decide) (by decide)
· obtain ⟨r, hrmem, hid, hpw⟩ := (c5_password_hashing [sampleU1] none sampleId2 9
    sampleId { name := none, email := none, password := none }
    { name := some "Alicia", email := none, password := none }).2.2.1
    (by decide)
    (UserRec.mk sampleId "Alicia" "a@x.com" (PwVal.hashed 3 (PwVal.plain "pw")))
    (by decide)
  rw [← List.mem_singleton.1 hrmem]
  exact hpw
· exact (c5_password_hashing [] none sampleId2 7 sampleId
    { name := none, email := none, password := none }
    { name := none, email := none, password := none }).2.2.2 3 "pw"

end UserApp
